import Mathlib

/-!
# Verification of the credit-risk ledger engine

A shallow embedding of the blockchain/ledger subsystem of the repository
(`backend/blockchain_integration.py` and the `CreditModelBlockchain` class of
`backend/deep_learning_model.py`), together with theorems settling the frozen
claims about it.

Modelling conventions, fixed once for the whole file:

* **Hashing.**  `hashlib.sha256(...).hexdigest()` is modelled as an abstract
  function `sha : String → String` carried in a `PyEnv` record.  Every theorem
  is universally quantified over the environment, so it holds in particular
  for the real SHA-256; concrete witnesses instantiate `sha` with small
  executable stand-ins.  (`.encode()` on the Python side is the identity on
  the character data, so we hash `String`s directly.)

* **Floats.**  Python floats appear in the code only (a) as JSON-rendered
  payload fields — modelled by carrying the exact `repr` string that
  `json.dumps` would emit (SQLite `REAL` round-trips a double exactly, so the
  string read back at verification time is the same one) — and (b) as the
  `integrity_score = verified / total` quotient, modelled exactly in `ℚ`
  (the comparisons `== 1.0` and `>= 0.95` agree with the float code on all
  realistic ledger sizes, and `0.95` is carried symbolically).

* **JSON canonicalisation.**  `json.dumps(..., sort_keys=True)` is embedded
  literally: keys in sorted order, `", "` and `": "` separators.  String
  escaping is not modelled (none of the persisted values in the claims need
  escapes); both the append path and the verify path go through the same
  embedding, exactly as both go through `json.dumps` in the source.
  `json.loads` of a previously dumped list is the identity, so rows store the
  parsed `List String` of `risk_factors` rather than its text.

* **SQLite.**  A table is a `List` of row structures in insertion (`id`)
  order; `SELECT ... ORDER BY id DESC LIMIT 1` is `List.getLast?`, and
  `INSERT` appends.  Crucially, the `INSERT` in `add_credit_score_block`
  does **not** supply the `timestamp` column, so SQLite fills it with its
  `CURRENT_TIMESTAMP` default (`"YYYY-MM-DD HH:MM:SS"`, UTC) — a different
  string from the `datetime.now().isoformat()` value that was hashed.  The
  embedding therefore passes two separate timestamp strings to an append:
  `now` (the hashed one) and `dbts` (the stored one).
-/

/-- The ambient Python facilities the ledger code uses: `sha` models
`hashlib.sha256(·.encode()).hexdigest()` and `reprFloat` models the
`repr`/`json.dumps` rendering of a Python float (here of the exact rational
carried for `integrity_score`). -/
structure PyEnv where
  sha : String → String
  reprFloat : ℚ → String

/-- `self.difficulty = 4` set in `CreditBlockchain.__init__`. -/
def difficulty : Nat := 4

/-- `target = "0" * self.difficulty` inside `proof_of_work`. -/
def powTarget : String := String.mk (List.replicate difficulty '0')

/-- Whether `p` is a character-wise prefix of `c` (helper for
`pyStartsWith`). -/
def charsStartWith : List Char → List Char → Bool
  | [], _ => true
  | _ :: _, [] => false
  | p :: ps, c :: cs => (p == c) && charsStartWith ps cs

/-- Python's `str.startswith(pre)`: `pre` is a prefix of `s`, checked
character by character. -/
def pyStartsWith (s pre : String) : Bool :=
  charsStartWith pre.toList s.toList

/-- The predicate tested on each nonce inside `proof_of_work`:
`hashlib.sha256(f"{block_data}{nonce}".encode()).hexdigest().startswith(target)`. -/
def powPred (env : PyEnv) (block_data : String) (nonce : Nat) : Bool :=
  pyStartsWith (env.sha (block_data ++ toString nonce)) powTarget

/-- The `while True` loop of `proof_of_work`, written with explicit fuel.
One call is one loop iteration: test the current nonce; on success return it;
otherwise increment, and `break` (returning the *incremented* value) once the
incremented nonce exceeds 1000000.  Started with fuel `1000001` the zero-fuel
branch is unreachable, because the loop always breaks by the time
`nonce = 1000000` is reached. -/
def powLoop (pred : Nat → Bool) : Nat → Nat → Nat
  | 0, nonce => nonce
  | fuel + 1, nonce =>
    if pred nonce then nonce
    else if nonce + 1 > 1000000 then nonce + 1
    else powLoop pred fuel (nonce + 1)

/-- `CreditBlockchain.proof_of_work(block_data)`: nonce search from 0,
step 1, capped by `if nonce > 1000000: break` after the increment. -/
def proof_of_work (env : PyEnv) (block_data : String) : Nat :=
  powLoop (powPred env block_data) 1000001 0

/-- If some nonce in `[start, 1000000]` satisfies `pred` and there is enough
fuel to reach it, `powLoop` returns the least such nonce at or after
`start`. -/
theorem powLoop_finds_least (pred : Nat → Bool) :
    ∀ fuel start, (∃ n, start ≤ n ∧ n ≤ 1000000 ∧ pred n = true) →
      1000001 ≤ start + fuel →
      pred (powLoop pred fuel start) = true ∧
        start ≤ powLoop pred fuel start ∧
        ∀ m, start ≤ m → m < powLoop pred fuel start → pred m = false := by
  intro fuel
  induction fuel with
  | zero =>
    intro start h hf
    obtain ⟨n, hn1, hn2, _⟩ := h
    omega
  | succ f ih =>
    intro start h hf
    simp only [powLoop]
    by_cases hp : pred start = true
    · rw [if_pos hp]
      exact ⟨hp, le_refl _, fun m hm1 hm2 => absurd hm1 (by omega)⟩
    · rw [if_neg hp]
      have hpf : pred start = false := by
        cases hb : pred start
        · rfl
        · exact absurd hb hp
      have hstart : start ≤ 1000000 := by
        obtain ⟨n, hn1, hn2, _⟩ := h
        omega
      by_cases hcap : start + 1 > 1000000
      · exfalso
        obtain ⟨n, hn1, hn2, hn3⟩ := h
        have hns : n = start := by omega
        rw [hns] at hn3
        rw [hn3] at hpf
        exact absurd hpf (by simp)
      · rw [if_neg hcap]
        have hex : ∃ n, start + 1 ≤ n ∧ n ≤ 1000000 ∧ pred n = true := by
          obtain ⟨n, hn1, hn2, hn3⟩ := h
          refine ⟨n, ?_, hn2, hn3⟩
          rcases Nat.eq_or_lt_of_le hn1 with rfl | hlt
          · rw [hn3] at hpf; exact absurd hpf (by simp)
          · omega
        obtain ⟨h1, h2, h3⟩ := ih (start + 1) hex (by omega)
        refine ⟨h1, by omega, fun m hm1 hm2 => ?_⟩
        rcases Nat.eq_or_lt_of_le hm1 with rfl | hlt
        · exact hpf
        · exact h3 m (by omega) hm2

/-- If no nonce in `[start, 1000000]` satisfies `pred`, `powLoop` (with enough
fuel) exhausts the cap and returns `1000001`. -/
theorem powLoop_exhausts (pred : Nat → Bool) :
    ∀ fuel start, (∀ n, start ≤ n → n ≤ 1000000 → pred n = false) →
      start ≤ 1000000 → 1000001 ≤ start + fuel →
      powLoop pred fuel start = 1000001 := by
  intro fuel
  induction fuel with
  | zero => intro start _ hs hf; omega
  | succ f ih =>
    intro start h hs hf
    simp only [powLoop]
    have hp : pred start = false := h start (le_refl _) hs
    rw [if_neg (by rw [hp]; exact Bool.false_ne_true)]
    by_cases hcap : start + 1 > 1000000
    · rw [if_pos hcap]
      omega
    · rw [if_neg hcap]
      exact ih (start + 1) (fun n hn1 hn2 => h n (by omega) hn2) (by omega) (by omega)

/-- One pairing pass of `calculate_merkle_root`'s `for i in range(0, len, 2)`
loop: adjacent elements are concatenated (raw strings, not their digests) and
hashed; an odd trailing element is paired with itself. -/
def pairUp (env : PyEnv) : List String → List String
  | [] => []
  | [a] => [env.sha (a ++ a)]
  | a :: b :: rest => env.sha (a ++ b) :: pairUp env rest

/-- The recursion of `calculate_merkle_root`, with fuel standing in for the
Python call stack.  Base cases exactly as in the source: empty list hashes the
empty byte string, a singleton is hashed once more.  Each round at least
halves a list of length ≥ 2, so fuel `= length` never runs out; the fuel-zero
branch (returning `""`) is unreachable from `calculate_merkle_root`. -/
def merkleAux (env : PyEnv) : Nat → List String → String
  | _, [] => env.sha ""
  | _, [t] => env.sha t
  | 0, _ => ""
  | f + 1, a :: b :: rest => merkleAux env f (pairUp env (a :: b :: rest))

/-- `CreditBlockchain.calculate_merkle_root(transactions)`. -/
def calculate_merkle_root (env : PyEnv) (transactions : List String) : String :=
  merkleAux env transactions.length transactions

/-- `"0" * 64`: the genesis `previous_hash` sentinel used by
`add_credit_score_block` and `add_transaction_block`. -/
def genesisSentinel : String := String.mk (List.replicate 64 '0')

/-- A row of the `credit_score_blockchain` table, in column order.
`prediction_confidence` carries the `repr` string of the stored `REAL`
(identical on write and read-back); `risk_factors` carries the list whose
`json.dumps` text is the stored `TEXT` column (`json.loads` restores it). -/
structure CreditScoreRow where
  block_hash : String
  previous_hash : String
  user_id : Int
  credit_score : Int
  model_version : String
  prediction_confidence : String
  risk_factors : List String
  merkle_root : String
  nonce : Nat
  timestamp : String
  miner_id : String
  block_size : Int
  verified : Bool
deriving DecidableEq, Repr

/-- A row of the `transaction_blockchain` table, in column order.
`amount` carries the `repr` string of the stored `REAL`. -/
structure TransactionRow where
  block_hash : String
  previous_hash : String
  user_id : Int
  transaction_type : String
  amount : String
  transaction_hash : String
  merkle_root : String
  nonce : Nat
  timestamp : String
  verified : Bool
deriving DecidableEq, Repr

/-- A row of the `model_version_blockchain` table, in column order (no code in
the repository inserts into it, but `verify_blockchain_integrity` scans it). -/
structure ModelVersionRow where
  block_hash : String
  previous_hash : String
  model_version : String
  accuracy : String
  training_data_hash : String
  algorithm_hash : String
  deployment_timestamp : String
  nonce : Nat
  verified : Bool
deriving DecidableEq, Repr

/-- A row of the `prediction_audit_blockchain` table, in column order (no code
in the repository inserts into it, but `verify_blockchain_integrity` scans
it). -/
structure PredictionAuditRow where
  block_hash : String
  previous_hash : String
  user_id : Int
  input_data_hash : String
  prediction_hash : String
  model_hash : String
  prediction_timestamp : String
  auditor_signature : Option String
  nonce : Nat
  verified : Bool
deriving DecidableEq, Repr

/-- A row of the `blockchain_verification_log` table. -/
structure VerificationRecord where
  blockchain_type : String
  total_blocks : Nat
  verified_blocks : Nat
  integrity_score : ℚ
  verification_timestamp : String
  verification_hash : String
deriving DecidableEq, Repr

/-- A row of the `model_blockchain` table of `CreditModelBlockchain`
(`deep_learning_model.py`), in column order.  `accuracy` carries the `repr`
string of the stored `REAL`. -/
structure ModelBlockRow where
  block_hash : String
  previous_hash : String
  model_version : String
  accuracy : String
  training_data_hash : String
  timestamp : String
  verified : Bool
deriving DecidableEq, Repr

/-- JSON string rendering (no characters needing escapes occur in the modelled
values, so this is plain quoting — used identically on the append and on the
verify path, as `json.dumps` is in the source). -/
def jsonStr (s : String) : String := "\"" ++ s ++ "\""

/-- `json.dumps` of a list of strings (default separators). -/
def jsonStrList (xs : List String) : String :=
  "[" ++ String.intercalate ", " (xs.map jsonStr) ++ "]"

/-- `json.dumps(block_data, sort_keys=True)` for the credit-score
`block_data` dict: keys in sorted order `credit_score, model_version,
prediction_confidence, previous_hash, risk_factors, timestamp, user_id`,
with the default `", "` / `": "` separators. -/
def creditBlockJson (credit_score : Int) (model_version : String)
    (confidence : String) (previous_hash : String) (risk_factors : List String)
    (timestamp : String) (user_id : Int) : String :=
  "\x7b\"credit_score\": " ++ toString credit_score ++
    ", \"model_version\": " ++ jsonStr model_version ++
    ", \"prediction_confidence\": " ++ confidence ++
    ", \"previous_hash\": " ++ jsonStr previous_hash ++
    ", \"risk_factors\": " ++ jsonStrList risk_factors ++
    ", \"timestamp\": " ++ jsonStr timestamp ++
    ", \"user_id\": " ++ toString user_id ++ "\x7d"

/-- `json.dumps(transaction_data, sort_keys=True)` for the transaction dict:
sorted keys `amount, timestamp, transaction_type, user_id`. -/
def transactionDataJson (amount : String) (timestamp : String)
    (transaction_type : String) (user_id : Int) : String :=
  "\x7b\"amount\": " ++ amount ++
    ", \"timestamp\": " ++ jsonStr timestamp ++
    ", \"transaction_type\": " ++ jsonStr transaction_type ++
    ", \"user_id\": " ++ toString user_id ++ "\x7d"

/-- `json.dumps(verification_data, sort_keys=True)` for the verification-log
dict: sorted keys `blockchain_type, integrity_score, timestamp, total_blocks,
verified_blocks`. -/
def verificationJson (env : PyEnv) (blockchain_type : String)
    (integrity_score : ℚ) (timestamp : String) (total_blocks : Nat)
    (verified_blocks : Nat) : String :=
  "\x7b\"blockchain_type\": " ++ jsonStr blockchain_type ++
    ", \"integrity_score\": " ++ env.reprFloat integrity_score ++
    ", \"timestamp\": " ++ jsonStr timestamp ++
    ", \"total_blocks\": " ++ toString total_blocks ++
    ", \"verified_blocks\": " ++ toString verified_blocks ++ "\x7d"

/-- `json.dumps(block_data, sort_keys=True)` for `CreditModelBlockchain`'s
model `block_data` dict: sorted keys `accuracy, model_version, previous_hash,
timestamp, training_data_hash`. -/
def modelBlockJson (accuracy : String) (model_version : String)
    (previous_hash : String) (timestamp : String)
    (training_data_hash : String) : String :=
  "\x7b\"accuracy\": " ++ accuracy ++
    ", \"model_version\": " ++ jsonStr model_version ++
    ", \"previous_hash\": " ++ jsonStr previous_hash ++
    ", \"timestamp\": " ++ jsonStr timestamp ++
    ", \"training_data_hash\": " ++ jsonStr training_data_hash ++ "\x7d"

/-- The database `credit_risk.db` as seen by `CreditBlockchain`: one list per
table, in `id` (insertion) order. -/
structure ChainState where
  creditLedger : List CreditScoreRow
  transactionLedger : List TransactionRow
  modelVersionLedger : List ModelVersionRow
  predictionAuditLedger : List PredictionAuditRow
  verificationLog : List VerificationRecord
deriving DecidableEq, Repr

/-- The empty database (all tables empty). -/
def emptyChain : ChainState :=
  ⟨[], [], [], [], []⟩

/-- A fetched row of whichever table `verify_blockchain_integrity` scans
(Python passes raw tuples; the constructor records which table the tuple came
from). -/
inductive BlockRow where
  | creditScore : CreditScoreRow → BlockRow
  | transaction : TransactionRow → BlockRow
  | modelVersion : ModelVersionRow → BlockRow
  | predictionAudit : PredictionAuditRow → BlockRow
deriving DecidableEq, Repr

/-- Column 1 of any of the four block tables: `block_hash`. -/
def rowBlockHash : BlockRow → String
  | BlockRow.creditScore r => r.block_hash
  | BlockRow.transaction r => r.block_hash
  | BlockRow.modelVersion r => r.block_hash
  | BlockRow.predictionAudit r => r.block_hash

/-- Column 2 of any of the four block tables: `previous_hash` (the `block[2]`
used by the linkage check in `verify_blockchain_integrity`). -/
def rowPrevHash : BlockRow → String
  | BlockRow.creditScore r => r.previous_hash
  | BlockRow.transaction r => r.previous_hash
  | BlockRow.modelVersion r => r.previous_hash
  | BlockRow.predictionAudit r => r.previous_hash

/-- `table_map.get(blockchain_type, 'credit_score_blockchain')` followed by
`SELECT * FROM {table} ORDER BY id`: any string other than the three named
alternatives falls back to the credit-score table. -/
def selectLedger (st : ChainState) (blockchain_type : String) : List BlockRow :=
  if blockchain_type = "transaction" then
    st.transactionLedger.map BlockRow.transaction
  else if blockchain_type = "model_version" then
    st.modelVersionLedger.map BlockRow.modelVersion
  else if blockchain_type = "prediction_audit" then
    st.predictionAuditLedger.map BlockRow.predictionAudit
  else
    st.creditLedger.map BlockRow.creditScore

/-- The canonical string `json.dumps(block_data, sort_keys=True)` that
`_verify_single_block` rebuilds from a persisted credit-score row (using the
row's *stored* timestamp column). -/
def creditCanonical (r : CreditScoreRow) : String :=
  creditBlockJson r.credit_score r.model_version r.prediction_confidence
    r.previous_hash r.risk_factors r.timestamp r.user_id

/-- `CreditBlockchain._verify_single_block(block, blockchain_type)`.  The
credit-score branch recomputes `sha(json.dumps(block_data, sort_keys=True) +
merkle_root + str(nonce))`; the transaction branch recomputes
`sha(previous_hash + transaction_hash + merkle_root + str(nonce))`; every
other `blockchain_type` reaches the trailing `return False` (and a tuple of
the wrong arity would raise and be caught, also yielding `False`). -/
def verify_single_block (env : PyEnv) (blockchain_type : String)
    (block : BlockRow) : Bool :=
  match blockchain_type, block with
  | "credit_score", BlockRow.creditScore r =>
    env.sha (creditCanonical r ++ r.merkle_root ++ toString r.nonce)
      == r.block_hash
  | "transaction", BlockRow.transaction r =>
    env.sha (r.previous_hash ++ r.transaction_hash ++ r.merkle_root
        ++ toString r.nonce)
      == r.block_hash
  | _, _ => false

/-- Whether `verify_blockchain_integrity` performs the inter-block linkage
check for this `blockchain_type` (only the `credit_score` and `transaction`
branches do; other kinds get per-block checks only). -/
def linkChecked (blockchain_type : String) : Bool :=
  blockchain_type == "credit_score" || blockchain_type == "transaction"

/-- The body of the `for i, block in enumerate(blocks)` loop for `i > 0`,
with `prev` the previously examined row (`blocks[i-1]`): first tally the
per-block verification of `block`, then — only for link-checked kinds — test
`block[2] != previous_block[1]` and `break` (keeping the tally so far) on a
mismatch. -/
def verifyLoopTail (env : PyEnv) (blockchain_type : String) :
    BlockRow → List BlockRow → Nat
  | _, [] => 0
  | prev, b :: rest =>
    let c := if verify_single_block env blockchain_type b then 1 else 0
    if linkChecked blockchain_type && (rowPrevHash b != rowBlockHash prev) then
      c
    else
      c + verifyLoopTail env blockchain_type b rest

/-- The whole `for` loop: the first block (`i = 0`) is tallied with no linkage
check, then the tail runs with the running predecessor. -/
def verifyChainCount (env : PyEnv) (blockchain_type : String) :
    List BlockRow → Nat
  | [] => 0
  | b :: rest =>
    (if verify_single_block env blockchain_type b then 1 else 0)
      + verifyLoopTail env blockchain_type b rest

/-- The dict returned by `verify_blockchain_integrity`.  Python returns a
plain dict; the empty-ledger early return carries no `verification_hash` key,
modelled by `none`. -/
structure VerifyResult where
  valid : Bool
  total_blocks : Nat
  verified_blocks : Nat
  integrity_score : ℚ
  verification_hash : Option String
deriving DecidableEq, Repr

/-- The returned dict of `CreditBlockchain.verify_blockchain_integrity`
(`now` is the `datetime.now().isoformat()` string inside
`verification_data`). -/
def verifyIntegrityResult (env : PyEnv) (st : ChainState)
    (blockchain_type : String) (now : String) : VerifyResult :=
  let blocks := selectLedger st blockchain_type
  if blocks.isEmpty then
    ⟨true, 0, 0, 1, none⟩
  else
    let total_blocks := blocks.length
    let verified_blocks := verifyChainCount env blockchain_type blocks
    let integrity_score : ℚ :=
      if 0 < total_blocks then (verified_blocks : ℚ) / (total_blocks : ℚ)
      else 1
    ⟨decide (integrity_score = 1), total_blocks, verified_blocks,
      integrity_score,
      some (env.sha (verificationJson env blockchain_type integrity_score now
        total_blocks verified_blocks))⟩

/-- `CreditBlockchain.verify_blockchain_integrity(blockchain_type)`, with its
database side effect.  On the empty ledger the function returns *before*
reaching the verification-log `INSERT`; otherwise exactly one
`VerificationRecord` row is appended (`dbts` is the `CURRENT_TIMESTAMP`
default SQLite assigns to `verification_timestamp`). -/
def verify_blockchain_integrity (env : PyEnv) (st : ChainState)
    (blockchain_type : String) (now dbts : String) :
    VerifyResult × ChainState :=
  let r := verifyIntegrityResult env st blockchain_type now
  if (selectLedger st blockchain_type).isEmpty then
    (r, st)
  else
    (r, { st with verificationLog := st.verificationLog ++
      [⟨blockchain_type, r.total_blocks, r.verified_blocks, r.integrity_score,
        dbts,
        env.sha (verificationJson env blockchain_type r.integrity_score now
          r.total_blocks r.verified_blocks)⟩] })

/-- The row that `add_credit_score_block(user_id, credit_score, model_version,
prediction_confidence, risk_factors)` builds and inserts.  `now` is the
`datetime.now().isoformat()` string placed in the hashed `block_data`; `dbts`
is the `CURRENT_TIMESTAMP` string SQLite assigns to the row's `timestamp`
column, which the `INSERT` does not supply (`miner_id` and `block_size` also
take their column defaults). -/
def newCreditRow (env : PyEnv) (st : ChainState) (user_id credit_score : Int)
    (model_version confidence : String) (risk_factors : List String)
    (now dbts : String) : CreditScoreRow :=
  let previous_hash :=
    ((st.creditLedger.getLast?).map fun r => r.block_hash).getD genesisSentinel
  let block_data :=
    creditBlockJson credit_score model_version confidence previous_hash
      risk_factors now user_id
  let merkle_root := calculate_merkle_root env [block_data]
  let block_string := block_data ++ merkle_root
  let nonce := proof_of_work env block_string
  let block_hash := env.sha (block_string ++ toString nonce)
  ⟨block_hash, previous_hash, user_id, credit_score, model_version,
    confidence, risk_factors, merkle_root, nonce, dbts, "system", 0, true⟩

/-- `CreditBlockchain.add_credit_score_block`: returns the new block hash and
the database with the row appended to `credit_score_blockchain`. -/
def add_credit_score_block (env : PyEnv) (st : ChainState)
    (user_id credit_score : Int) (model_version confidence : String)
    (risk_factors : List String) (now dbts : String) : String × ChainState :=
  let r := newCreditRow env st user_id credit_score model_version confidence
    risk_factors now dbts
  (r.block_hash, { st with creditLedger := st.creditLedger ++ [r] })

/-- The row that `add_transaction_block(user_id, transaction_type, amount)`
builds and inserts (`now` the hashed isoformat timestamp, `dbts` the stored
`CURRENT_TIMESTAMP` default). -/
def newTransactionRow (env : PyEnv) (st : ChainState) (user_id : Int)
    (transaction_type amount : String) (now dbts : String) : TransactionRow :=
  let previous_hash :=
    ((st.transactionLedger.getLast?).map fun r => r.block_hash).getD
      genesisSentinel
  let transaction_hash :=
    env.sha (transactionDataJson amount now transaction_type user_id)
  let merkle_root := calculate_merkle_root env [transaction_hash]
  let block_string := previous_hash ++ transaction_hash ++ merkle_root
  let nonce := proof_of_work env block_string
  let block_hash := env.sha (block_string ++ toString nonce)
  ⟨block_hash, previous_hash, user_id, transaction_type, amount,
    transaction_hash, merkle_root, nonce, dbts, true⟩

/-- `CreditBlockchain.add_transaction_block`. -/
def add_transaction_block (env : PyEnv) (st : ChainState) (user_id : Int)
    (transaction_type amount : String) (now dbts : String) :
    String × ChainState :=
  let r := newTransactionRow env st user_id transaction_type amount now dbts
  (r.block_hash, { st with transactionLedger := st.transactionLedger ++ [r] })

/-- The row that `CreditModelBlockchain.add_model_block(model_version,
accuracy, training_data_hash)` (`deep_learning_model.py`) builds and inserts
into `model_blockchain`.  Note its genesis fallback is the single character
`"0"`, not 64 zeros, and there is no Merkle root or proof of work here. -/
def newModelBlockRow (env : PyEnv) (ledger : List ModelBlockRow)
    (model_version accuracy training_data_hash : String) (now dbts : String) :
    ModelBlockRow :=
  let previous_hash := ((ledger.getLast?).map fun r => r.block_hash).getD "0"
  let block_string :=
    modelBlockJson accuracy model_version previous_hash now training_data_hash
  let block_hash := env.sha block_string
  ⟨block_hash, previous_hash, model_version, accuracy, training_data_hash,
    dbts, true⟩

/-- `CreditModelBlockchain.add_model_block`: returns the new block hash and
the `model_blockchain` table with the row appended. -/
def add_model_block (env : PyEnv) (ledger : List ModelBlockRow)
    (model_version accuracy training_data_hash : String) (now dbts : String) :
    String × List ModelBlockRow :=
  let r := newModelBlockRow env ledger model_version accuracy
    training_data_hash now dbts
  (r.block_hash, ledger ++ [r])

/-- One entry of `health_status` in the `/health` endpoint
`blockchain_health_check`. -/
structure KindHealth where
  status : String
  integrity_score : ℚ
  total_blocks : Nat
deriving DecidableEq, Repr

/-- The response of `blockchain_health_check`: `health_status` has exactly the
two keys `credit_score` and `transaction` (the only members of
`blockchain_types` in the source), plus the overall status. -/
structure HealthResult where
  credit_score : KindHealth
  transaction : KindHealth
  overall_status : String
deriving DecidableEq, Repr

/-- The `/api/blockchain/health` endpoint `blockchain_health_check`: verifies
the `credit_score` ledger, then the `transaction` ledger (each call may
append a verification-log row, threaded through the state); a kind is
`healthy` iff its integrity score is at least `0.95`, and the overall status
is `healthy` iff every entry of `health_status` is. -/
def blockchain_health_check (env : PyEnv) (st : ChainState)
    (now1 dbts1 now2 dbts2 : String) : HealthResult × ChainState :=
  let p1 := verify_blockchain_integrity env st "credit_score" now1 dbts1
  let p2 := verify_blockchain_integrity env p1.2 "transaction" now2 dbts2
  let h1 : KindHealth :=
    ⟨if (0.95 : ℚ) ≤ p1.1.integrity_score then "healthy" else "degraded",
      p1.1.integrity_score, p1.1.total_blocks⟩
  let h2 : KindHealth :=
    ⟨if (0.95 : ℚ) ≤ p2.1.integrity_score then "healthy" else "degraded",
      p2.1.integrity_score, p2.1.total_blocks⟩
  let overall := (h1.status == "healthy") && (h2.status == "healthy")
  (⟨h1, h2, if overall then "healthy" else "degraded"⟩, p2.2)

/-- `blocks[i].previous_hash == blocks[i-1].block_hash` holds along a whole
segment whose predecessor is `prev`. -/
def chainOkFrom (prev : BlockRow) : List BlockRow → Bool
  | [] => true
  | b :: rest => (rowPrevHash b == rowBlockHash prev) && chainOkFrom b rest

/-- The last row of `prev :: l`. -/
def lastFrom (prev : BlockRow) : List BlockRow → BlockRow
  | [] => prev
  | b :: rest => lastFrom b rest

/-- How many rows of `bs` pass `_verify_single_block` (the tally the loop
produces when it never breaks). -/
def countVerified (env : PyEnv) (blockchain_type : String)
    (bs : List BlockRow) : Nat :=
  bs.countP (fun b => verify_single_block env blockchain_type b)

/-- How many loop iterations the `verify_blockchain_integrity` scan performs
on the rows after the first, given predecessor `prev`: every row up to and
including the first linkage mismatch is examined, nothing after it. -/
def examinedTail (blockchain_type : String) : BlockRow → List BlockRow → Nat
  | _, [] => 0
  | prev, b :: rest =>
    if linkChecked blockchain_type && (rowPrevHash b != rowBlockHash prev) then
      1
    else
      1 + examinedTail blockchain_type b rest

/-- The number of rows the `verify_blockchain_integrity` scan examines (the
claims measure `integrity_score` against this count). -/
def examinedCount (blockchain_type : String) : List BlockRow → Nat
  | [] => 0
  | b :: rest => 1 + examinedTail blockchain_type b rest

theorem verifyLoopTail_linked (env : PyEnv) (bt : String) :
    ∀ (l : List BlockRow) (p : BlockRow), chainOkFrom p l = true →
      verifyLoopTail env bt p l = countVerified env bt l := by
  intro l
  induction l with
  | nil => intro p _; rfl
  | cons b rest ih =>
    intro p hok
    simp only [chainOkFrom, Bool.and_eq_true, beq_iff_eq] at hok
    obtain ⟨hlink, hrest⟩ := hok
    simp only [verifyLoopTail, bne, hlink]
    simp only [beq_self_eq_true, Bool.not_true, Bool.and_false,
      Bool.false_eq_true, if_false]
    rw [ih b hrest]
    simp only [countVerified, List.countP_cons]
    omega

theorem verifyLoopTail_nolink (env : PyEnv) (bt : String)
    (hbt : linkChecked bt = false) :
    ∀ (l : List BlockRow) (p : BlockRow),
      verifyLoopTail env bt p l = countVerified env bt l := by
  intro l
  induction l with
  | nil => intro p; rfl
  | cons b rest ih =>
    intro p
    simp only [verifyLoopTail, hbt, Bool.false_and, Bool.false_eq_true,
      if_false]
    rw [ih b]
    simp only [countVerified, List.countP_cons]
    omega

theorem verifyLoopTail_break (env : PyEnv) (bt : String)
    (hbt : linkChecked bt = true) (b : BlockRow) (post : List BlockRow) :
    ∀ (pre : List BlockRow) (p : BlockRow), chainOkFrom p pre = true →
      rowPrevHash b ≠ rowBlockHash (lastFrom p pre) →
      verifyLoopTail env bt p (pre ++ b :: post) =
        countVerified env bt pre
          + (if verify_single_block env bt b then 1 else 0) := by
  intro pre
  induction pre with
  | nil =>
    intro p _ hmis
    simp only [List.nil_append, verifyLoopTail, hbt, Bool.true_and]
    rw [if_pos (by simpa [bne] using hmis)]
    simp [countVerified]
  | cons q pre' ih =>
    intro p hok hmis
    simp only [chainOkFrom, Bool.and_eq_true, beq_iff_eq] at hok
    obtain ⟨hlink, hrest⟩ := hok
    simp only [List.cons_append, verifyLoopTail, bne, hlink]
    simp only [beq_self_eq_true, Bool.not_true, Bool.and_false,
      Bool.false_eq_true, if_false]
    rw [show pre'.append (b :: post) = pre' ++ b :: post from rfl,
      ih q hrest (by simpa [lastFrom] using hmis)]
    simp only [countVerified, List.countP_cons]
    omega

theorem verifyLoopTail_allfalse (env : PyEnv) (bt : String)
    (hall : ∀ x, verify_single_block env bt x = false) :
    ∀ (l : List BlockRow) (p : BlockRow), verifyLoopTail env bt p l = 0 := by
  intro l
  induction l with
  | nil => intro p; rfl
  | cons b rest ih =>
    intro p
    simp only [verifyLoopTail, hall b, Bool.false_eq_true, if_false]
    split
    · rfl
    · rw [ih b]

/-- A concrete environment for witnesses: the "digest" prefixes every input
with `0000#`, so it is injective, satisfies the difficulty target on every
input (proof of work succeeds at nonce 0), and keeps evaluation cheap. -/
def envG : PyEnv := ⟨fun s => "0000#" ++ s, fun _ => "1.0"⟩

/-- A concrete environment whose "digest" tags its input as `#(...)`:
injective but never meeting the difficulty target. -/
def envTag : PyEnv := ⟨fun s => "#(" ++ s ++ ")", fun _ => "1.0"⟩

/-- A concrete environment whose "digest" is constantly `"1"`: no nonce ever
satisfies the proof-of-work predicate. -/
def envNever : PyEnv := ⟨fun _ => "1", fun _ => "1.0"⟩

/-- A concrete environment whose "digest" meets the difficulty target exactly
on the input `x3` (so block data `x` mines nonce 3). -/
def envHit3 : PyEnv :=
  ⟨fun s => if s = "x3" then "0000#" ++ s else "1#" ++ s, fun _ => "1.0"⟩

/-- Overwrite a credit-score row's `block_hash` with the digest
`_verify_single_block` would recompute from its stored fields, making the row
individually valid. -/
def sealCreditRow (env : PyEnv) (r : CreditScoreRow) : CreditScoreRow :=
  { r with block_hash :=
      env.sha (creditCanonical r ++ r.merkle_root ++ toString r.nonce) }

/-- Evaluation form of `verifyIntegrityResult` on a non-empty ledger: all
fields in terms of the loop tally and the full ledger length. -/
theorem verifyIntegrityResult_eval (env : PyEnv) (st : ChainState)
    (bt now : String) (b : BlockRow) (rest : List BlockRow) (v : Nat)
    (hsel : selectLedger st bt = b :: rest)
    (hv : verifyChainCount env bt (b :: rest) = v) :
    verifyIntegrityResult env st bt now =
      ⟨decide (((v : ℚ) / ((rest.length + 1 : Nat) : ℚ)) = 1), rest.length + 1,
        v, (v : ℚ) / ((rest.length + 1 : Nat) : ℚ),
        some (env.sha (verificationJson env bt
          ((v : ℚ) / ((rest.length + 1 : Nat) : ℚ)) now (rest.length + 1)
          v))⟩ := by
  unfold verifyIntegrityResult
  rw [hsel]
  simp only [List.isEmpty_cons, List.length_cons, hv]
  rw [if_neg (by simp)]
  rw [if_pos (Nat.succ_pos _)]

/-- On an empty ledger the whole verification call returns the vacuous
result, leaves the database untouched, and reports no verification hash. -/
theorem verify_integrity_empty (env : PyEnv) (st : ChainState)
    (bt now dbts : String) (h : selectLedger st bt = []) :
    verify_blockchain_integrity env st bt now dbts =
      (⟨true, 0, 0, 1, none⟩, st) := by
  unfold verify_blockchain_integrity verifyIntegrityResult
  rw [h]
  rfl

/-- The dict returned by `verify_blockchain_integrity` is
`verifyIntegrityResult` in both branches. -/
theorem verify_integrity_fst (env : PyEnv) (st : ChainState)
    (bt now dbts : String) :
    (verify_blockchain_integrity env st bt now dbts).1 =
      verifyIntegrityResult env st bt now := by
  unfold verify_blockchain_integrity
  split <;> rfl

/-- The verification log is never consulted by the scan, so updating it does
not change the scan's result. -/
theorem verifyIntegrityResult_log (env : PyEnv) (st : ChainState)
    (bt now : String) (l : List VerificationRecord) :
    verifyIntegrityResult env { st with verificationLog := l } bt now =
      verifyIntegrityResult env st bt now := rfl

/-- Running one verification pass (which at most appends a log row) does not
change the result of a later scan. -/
theorem verifyIntegrityResult_after_verify (env : PyEnv) (st : ChainState)
    (bt1 now1 dbts1 bt2 now2 : String) :
    verifyIntegrityResult env
        (verify_blockchain_integrity env st bt1 now1 dbts1).2 bt2 now2 =
      verifyIntegrityResult env st bt2 now2 := by
  unfold verify_blockchain_integrity
  split
  · rfl
  · exact verifyIntegrityResult_log env st bt2 now2 _

set_option maxRecDepth 100000

/-- Credit-score row 0 of the tampered test ledger: individually valid
(sealed), linked to the genesis sentinel. -/
def c2Row0 : CreditScoreRow :=
  sealCreditRow envG
    ⟨"", genesisSentinel, 0, 700, "v", "0.5", [], "m", 0, "t0", "system", 0,
      true⟩

/-- Credit-score row 1: individually valid, but its `previous_hash` (`"x"`)
does not match row 0's `block_hash` — the first linkage break. -/
def c2Row1 : CreditScoreRow :=
  sealCreditRow envG
    ⟨"", "x", 1, 700, "v", "0.5", [], "m", 0, "t1", "system", 0, true⟩

/-- Credit-score row 2: individually valid, sits after the linkage break and
is therefore never examined. -/
def c2Row2 : CreditScoreRow :=
  sealCreditRow envG
    ⟨"", "y", 2, 700, "v", "0.5", [], "m", 0, "t2", "system", 0, true⟩

/-- A database whose credit ledger is the three rows above. -/
def c2State : ChainState := ⟨[c2Row0, c2Row1, c2Row2], [], [], [], []⟩

/-- The database after one `add_credit_score_block(1, 720, "v1", 0.91,
["high_debt_ratio"])` on an empty database, with the wall clock reading
`2025-01-01T12:00:00.000000` (the hashed isoformat string) while SQLite
assigns `2025-01-01 12:00:00` (its `CURRENT_TIMESTAMP` format) to the
row's `timestamp` column. -/
def c1State : ChainState :=
  (add_credit_score_block envG emptyChain 1 720 "v1" "0.91"
    ["high_debt_ratio"] "2025-01-01T12:00:00.000000"
    "2025-01-01 12:00:00").2

/-- An arbitrary persisted credit-score row (used to exercise the
verification-log write on a non-empty ledger). -/
def c7Row : CreditScoreRow :=
  ⟨"h", "p", 1, 650, "m1", "0.2", [], "mr", 0, "ts", "system", 0, true⟩

/-- A database whose credit ledger holds exactly `c7Row`. -/
def c7State : ChainState := ⟨[c7Row], [], [], [], []⟩

/-- An arbitrary persisted model-version row. -/
def c9ModelRow : ModelVersionRow :=
  ⟨"bh", "ph", "mv", "0.9", "tdh", "ah", "dts", 0, true⟩

/-- A database whose only content is one model-version row (credit and
transaction ledgers empty). -/
def c9State : ChainState := ⟨[], [], [c9ModelRow], [], []⟩

/-- C4 (confirmed): whenever some nonce within the attempt cap satisfies the
difficulty predicate (digest of `block_data ++ str(nonce)` starts with
`difficulty` = 4 zero characters), `proof_of_work` returns the least
non-negative integer satisfying the predicate, having searched nonces from 0
upward in steps of 1. -/
theorem c4_proof_of_work_returns_least_nonce (env : PyEnv)
    (block_data : String)
    (h : ∃ n, n ≤ 1000000 ∧ powPred env block_data n = true) :
    powPred env block_data (proof_of_work env block_data) = true ∧
      ∀ m, m < proof_of_work env block_data →
        powPred env block_data m = false := by
  obtain ⟨h1, _, h3⟩ := powLoop_finds_least (powPred env block_data) 1000001 0
    (by obtain ⟨n, hn1, hn2⟩ := h; exact ⟨n, Nat.zero_le _, hn1, hn2⟩)
    (by omega)
  exact ⟨h1, fun m hm => h3 m (Nat.zero_le _) hm⟩

/-- C4 witness: with a digest meeting the target exactly on input `x3`,
mining block data `x` finds nonce 3 and nothing below it. -/
theorem c4_proof_of_work_returns_least_nonce_witness :
    (∃ n, n ≤ 1000000 ∧ powPred envHit3 "x" n = true) ∧
      (powPred envHit3 "x" (proof_of_work envHit3 "x") = true ∧
        ∀ m, m < proof_of_work envHit3 "x" → powPred envHit3 "x" m = false) :=
  ⟨⟨3, by decide, by decide⟩,
    c4_proof_of_work_returns_least_nonce envHit3 "x" ⟨3, by decide, by decide⟩⟩

/-- C5 (amended): if no nonce `n ≤ 1000000` satisfies the difficulty
predicate, `proof_of_work` terminates and returns `1000001` — one more than
the last attempted nonce (1000000) — a value that is itself never tested
against the predicate. -/
theorem c5_exhaustion_returns_cap_plus_one (env : PyEnv) (block_data : String)
    (h : ∀ n, n ≤ 1000000 → powPred env block_data n = false) :
    proof_of_work env block_data = 1000001 :=
  powLoop_exhausts (powPred env block_data) 1000001 0
    (fun n _ hn => h n hn) (by omega) (by omega)

/-- C5 witness: a constant digest `"1"` never meets the target, and the
search returns 1000001. -/
theorem c5_exhaustion_returns_cap_plus_one_witness :
    (∀ n, n ≤ 1000000 → powPred envNever "x" n = false) ∧
      proof_of_work envNever "x" = 1000001 :=
  ⟨fun n _ => rfl,
    c5_exhaustion_returns_cap_plus_one envNever "x" fun n _ => rfl⟩

/-- C5 counterexample: the claim says exhaustion returns the last attempted
nonce.  The loop increments before testing the cap, so the attempted nonces
are exactly 0..1000000 and the returned value 1000001 is one past the last
attempted nonce 1000000, never itself tested. -/
theorem c5_counterexample_not_last_attempted :
    proof_of_work envNever "x" = 1000001 ∧ (1000001 : Nat) ≠ 1000000 ∧
      powPred envNever "x" 1000000 = false :=
  ⟨powLoop_exhausts (powPred envNever "x") 1000001 0 (fun n _ _ => rfl)
      (by omega) (by omega),
    by omega, rfl⟩

/-- C8 (confirmed): on an empty ledger of the requested kind,
`verify_blockchain_integrity` returns exactly `valid=true, total_blocks=0,
verified_blocks=0, integrity_score=1.0` (and no `verification_hash` key),
examining no block and leaving the database unchanged. -/
theorem c8_empty_ledger_vacuously_valid (env : PyEnv) (st : ChainState)
    (bt now dbts : String) (h : selectLedger st bt = []) :
    verify_blockchain_integrity env st bt now dbts =
      (⟨true, 0, 0, 1, none⟩, st) :=
  verify_integrity_empty env st bt now dbts h

/-- C8 witness: the empty database, credit-score kind. -/
theorem c8_empty_ledger_vacuously_valid_witness :
    selectLedger emptyChain "credit_score" = [] ∧
      verify_blockchain_integrity envTag emptyChain "credit_score" "t" "d" =
        (⟨true, 0, 0, 1, none⟩, emptyChain) :=
  ⟨by decide,
    c8_empty_ledger_vacuously_valid envTag emptyChain "credit_score" "t" "d"
      (by decide)⟩

/-- C1: the claim states that appending credit-score payloads into an empty
ledger always leaves `verify_blockchain_integrity('credit_score')` returning
`valid=true` with `integrity_score=1.0`, the recomputed hash of every block
matching its stored `block_hash`.  The code cannot satisfy this: the
`INSERT` omits the `timestamp` column, so the `datetime.now().isoformat()`
string that was hashed is never persisted — SQLite stores its
`CURRENT_TIMESTAMP` default instead — and `_verify_single_block` recomputes
the hash from that different stored string.  Evaluated at one concrete
append: the chain tally is 0 of 1, `valid=false`, the score is not 1; and
the very same block *would* verify had the hashed timestamp string been the
one persisted (the final conjunct), isolating the unpersisted timestamp as
the cause. -/
theorem c1_verify_fails_on_unpersisted_timestamp :
    verifyChainCount envG "credit_score"
        (selectLedger c1State "credit_score") = 0 ∧
    (verifyIntegrityResult envG c1State "credit_score" "z").valid = false ∧
    (verifyIntegrityResult envG c1State "credit_score" "z").integrity_score
      ≠ 1 ∧
    verify_single_block envG "credit_score" (BlockRow.creditScore
      { (newCreditRow envG emptyChain 1 720 "v1" "0.91" ["high_debt_ratio"]
          "2025-01-01T12:00:00.000000" "2025-01-01 12:00:00") with
          timestamp := "2025-01-01T12:00:00.000000" }) = true := by
  have hsel : selectLedger c1State "credit_score" =
      BlockRow.creditScore (newCreditRow envG emptyChain 1 720 "v1" "0.91"
        ["high_debt_ratio"] "2025-01-01T12:00:00.000000"
        "2025-01-01 12:00:00") :: [] := rfl
  have hv : verifyChainCount envG "credit_score"
      (BlockRow.creditScore (newCreditRow envG emptyChain 1 720 "v1" "0.91"
        ["high_debt_ratio"] "2025-01-01T12:00:00.000000"
        "2025-01-01 12:00:00") :: []) = 0 := by decide
  have hres := verifyIntegrityResult_eval envG c1State "credit_score" "z"
    _ _ 0 hsel hv
  refine ⟨by decide, ?_, ?_, by decide⟩
  · rw [hres]
    norm_num
  · rw [hres]
    norm_num

/-- C2 counterexample: the claim says the returned `integrity_score` equals
`verified_blocks` divided by the number of blocks examined up to the break.
On a concrete 3-block credit ledger whose first linkage mismatch is at index
1 (blocks 0 and 1 examined, both individually valid, so 2 verified of 2
examined), the code instead divides by the full ledger length: the score is
2/3, not 2/2. -/
theorem c2_score_divides_by_total_not_examined :
    (verifyIntegrityResult envG c2State "credit_score" "now").verified_blocks
      = 2 ∧
    examinedCount "credit_score" (selectLedger c2State "credit_score") = 2 ∧
    (verifyIntegrityResult envG c2State "credit_score" "now").integrity_score
      = 2 / 3 ∧
    (verifyIntegrityResult envG c2State "credit_score" "now").integrity_score
      ≠ 2 / 2 := by
  have hsel : selectLedger c2State "credit_score" =
      BlockRow.creditScore c2Row0 ::
        [BlockRow.creditScore c2Row1, BlockRow.creditScore c2Row2] := rfl
  have hv : verifyChainCount envG "credit_score"
      (BlockRow.creditScore c2Row0 ::
        [BlockRow.creditScore c2Row1, BlockRow.creditScore c2Row2]) = 2 := by
    decide
  have hres := verifyIntegrityResult_eval envG c2State "credit_score" "now"
    _ _ 2 hsel hv
  refine ⟨?_, by decide, ?_, ?_⟩
  · rw [hres]
  · rw [hres]
    norm_num
  · rw [hres]
    norm_num

/-- C2 (amended): when the first linkage mismatch occurs at index `i` of a
link-checked ledger, no block after index `i` is examined or counted — the
tally is the per-block verifications of blocks `0..i` only — but the
returned `integrity_score` equals that tally divided by the total number of
blocks in the ledger (not the number examined), and `valid` is true exactly
when the score equals 1. -/
theorem c2_failfast_tally_and_score (env : PyEnv) (st : ChainState)
    (bt now : String) (hd b : BlockRow) (pre post : List BlockRow)
    (hlink : linkChecked bt = true)
    (hsel : selectLedger st bt = hd :: (pre ++ b :: post))
    (hok : chainOkFrom hd pre = true)
    (hmis : rowPrevHash b ≠ rowBlockHash (lastFrom hd pre)) :
    (verifyIntegrityResult env st bt now).verified_blocks =
      (if verify_single_block env bt hd then 1 else 0)
        + countVerified env bt pre
        + (if verify_single_block env bt b then 1 else 0) ∧
    (verifyIntegrityResult env st bt now).total_blocks =
      (hd :: (pre ++ b :: post)).length ∧
    (verifyIntegrityResult env st bt now).integrity_score =
      ((verifyIntegrityResult env st bt now).verified_blocks : ℚ) /
        ((verifyIntegrityResult env st bt now).total_blocks : ℚ) ∧
    ((verifyIntegrityResult env st bt now).valid = true ↔
      (verifyIntegrityResult env st bt now).integrity_score = 1) := by
  have hv : verifyChainCount env bt (hd :: (pre ++ b :: post)) =
      (if verify_single_block env bt hd then 1 else 0)
        + countVerified env bt pre
        + (if verify_single_block env bt b then 1 else 0) := by
    simp only [verifyChainCount]
    rw [verifyLoopTail_break env bt hlink b post pre hd hok hmis]
    omega
  have hres := verifyIntegrityResult_eval env st bt now hd
    (pre ++ b :: post) _ hsel hv
  refine ⟨?_, ?_, ?_, ?_⟩
  · rw [hres]
  · rw [hres]
    simp
  · rw [hres]
  · rw [hres]
    simp

/-- C2 witness: the amended statement evaluated on the concrete 3-block
ledger with the linkage break at index 1. -/
theorem c2_failfast_tally_and_score_witness :
    (linkChecked "credit_score" = true ∧
      selectLedger c2State "credit_score" =
        BlockRow.creditScore c2Row0 ::
          ([] ++ BlockRow.creditScore c2Row1 ::
            [BlockRow.creditScore c2Row2]) ∧
      chainOkFrom (BlockRow.creditScore c2Row0) [] = true ∧
      rowPrevHash (BlockRow.creditScore c2Row1) ≠
        rowBlockHash (lastFrom (BlockRow.creditScore c2Row0) [])) ∧
    ((verifyIntegrityResult envG c2State "credit_score" "now").verified_blocks
        =
      (if verify_single_block envG "credit_score"
          (BlockRow.creditScore c2Row0) then 1 else 0)
        + countVerified envG "credit_score" []
        + (if verify_single_block envG "credit_score"
            (BlockRow.creditScore c2Row1) then 1 else 0) ∧
      (verifyIntegrityResult envG c2State "credit_score" "now").total_blocks =
        (BlockRow.creditScore c2Row0 ::
          ([] ++ BlockRow.creditScore c2Row1 ::
            [BlockRow.creditScore c2Row2])).length ∧
      (verifyIntegrityResult envG c2State "credit_score"
            "now").integrity_score =
        ((verifyIntegrityResult envG c2State "credit_score"
            "now").verified_blocks : ℚ) /
          ((verifyIntegrityResult envG c2State "credit_score"
              "now").total_blocks : ℚ) ∧
      ((verifyIntegrityResult envG c2State "credit_score" "now").valid = true
        ↔ (verifyIntegrityResult envG c2State "credit_score"
            "now").integrity_score = 1)) :=
  ⟨⟨rfl, rfl, rfl, by decide⟩,
    c2_failfast_tally_and_score envG c2State "credit_score" "now"
      (BlockRow.creditScore c2Row0) (BlockRow.creditScore c2Row1) []
      [BlockRow.creditScore c2Row2] rfl rfl rfl (by decide)⟩

/-- C3 counterexample: the claim says every ledger kind uses the 64-zero
genesis sentinel.  The model-version appender (`add_model_block` of
`CreditModelBlockchain`) gives the first block of an empty model ledger the
`previous_hash` `"0"` — a single character, not the 64-zero sentinel. -/
theorem c3_model_genesis_sentinel_is_single_zero :
    (newModelBlockRow envTag [] "v1" "0.9" "tdh" "tn" "td").previous_hash
      = "0" ∧
    (newModelBlockRow envTag [] "v1" "0.9" "tdh" "tn" "td").previous_hash ≠
      genesisSentinel := by decide

/-- C3 (amended): the first block appended to an empty credit-score or
transaction ledger gets `previous_hash` equal to the 64-zero genesis
sentinel, while the model-version appender uses the single character `"0"`
as its genesis sentinel; in all three cases, a block appended to a non-empty
ledger has `previous_hash` equal to the current last block's `block_hash`
(no appender exists for the prediction-audit ledger). -/
theorem c3_genesis_and_linkage (env : PyEnv) (st : ChainState) (uid cs : Int)
    (mv conf ttype amt acc tdh : String) (rf : List String)
    (now dbts : String) (l1 : List CreditScoreRow) (r1 : CreditScoreRow)
    (l2 : List TransactionRow) (r2 : TransactionRow)
    (l3 : List ModelBlockRow) (r3 : ModelBlockRow) :
    (newCreditRow env { st with creditLedger := [] } uid cs mv conf rf now
      dbts).previous_hash = genesisSentinel ∧
    (newTransactionRow env { st with transactionLedger := [] } uid ttype amt
      now dbts).previous_hash = genesisSentinel ∧
    (newModelBlockRow env [] mv acc tdh now dbts).previous_hash = "0" ∧
    (newCreditRow env { st with creditLedger := l1 ++ [r1] } uid cs mv conf
      rf now dbts).previous_hash = r1.block_hash ∧
    (newTransactionRow env { st with transactionLedger := l2 ++ [r2] } uid
      ttype amt now dbts).previous_hash = r2.block_hash ∧
    (newModelBlockRow env (l3 ++ [r3]) mv acc tdh now
      dbts).previous_hash = r3.block_hash := by
  refine ⟨rfl, rfl, rfl, ?_, ?_, ?_⟩ <;>
    simp [newCreditRow, newTransactionRow, newModelBlockRow,
      List.getLast?_concat]

/-- C6 counterexample: the claim says `root([a,b]) =
digest(digest(a) ‖ digest(b))`.  The code concatenates the *raw* leaves
before hashing (and the final singleton recursion hashes once more), so
`root([a,b]) = digest(digest(a ‖ b))`, which differs. -/
theorem c6_pair_concatenates_before_hashing :
    calculate_merkle_root envTag ["a", "b"] =
      envTag.sha (envTag.sha ("a" ++ "b")) ∧
    calculate_merkle_root envTag ["a", "b"] ≠
      envTag.sha (envTag.sha "a" ++ envTag.sha "b") := by decide

/-- C6 (amended): `calculate_merkle_root` returns the digest of the empty
string on `[]` and `digest(x)` on `[x]`; on `[a,b]` it returns
`digest(digest(a ‖ b))` (raw leaves concatenated, then the one-element base
case hashes again); on `[a,b,c]` the odd last leaf is duplicated and paired
with itself, giving `digest(digest(digest(a‖b) ‖ digest(c‖c)))`, the same
value as `root([a,b,c,c])`. -/
theorem c6_merkle_shapes (env : PyEnv) (x a b c : String) :
    calculate_merkle_root env [] = env.sha "" ∧
    calculate_merkle_root env [x] = env.sha x ∧
    calculate_merkle_root env [a, b] = env.sha (env.sha (a ++ b)) ∧
    calculate_merkle_root env [a, b, c] =
      env.sha (env.sha (env.sha (a ++ b) ++ env.sha (c ++ c))) ∧
    calculate_merkle_root env [a, b, c] =
      calculate_merkle_root env [a, b, c, c] :=
  ⟨rfl, rfl, rfl, rfl, rfl⟩

/-- C7 counterexample: the claim says every `verify_blockchain_integrity`
call — including on the empty ledger — persists a verification-log row and
returns its hash.  On the empty ledger the function returns before the
`INSERT`: the log stays empty and the returned dict has no
`verification_hash` key. -/
theorem c7_empty_ledger_writes_no_record :
    (verify_blockchain_integrity envTag emptyChain "credit_score" "t"
      "d").2.verificationLog = [] ∧
    (verify_blockchain_integrity envTag emptyChain "credit_score" "t"
      "d").1.verification_hash = none := by decide

/-- C7 (amended): on a **non-empty** ledger, `verify_blockchain_integrity`
persists exactly one verification-log row, whose `verification_hash` is the
digest of the canonical verification record and is also returned in the
result; on the empty ledger nothing is persisted and no hash is returned. -/
theorem c7_nonempty_verify_logs_record (env : PyEnv) (st : ChainState)
    (bt now dbts : String) (h : selectLedger st bt ≠ []) :
    (verify_blockchain_integrity env st bt now dbts).1 =
      verifyIntegrityResult env st bt now ∧
    (verify_blockchain_integrity env st bt now dbts).2.verificationLog =
      st.verificationLog ++
        [⟨bt, (verifyIntegrityResult env st bt now).total_blocks,
          (verifyIntegrityResult env st bt now).verified_blocks,
          (verifyIntegrityResult env st bt now).integrity_score, dbts,
          env.sha (verificationJson env bt
            (verifyIntegrityResult env st bt now).integrity_score now
            (verifyIntegrityResult env st bt now).total_blocks
            (verifyIntegrityResult env st bt now).verified_blocks)⟩] ∧
    (verifyIntegrityResult env st bt now).verification_hash =
      some (env.sha (verificationJson env bt
        (verifyIntegrityResult env st bt now).integrity_score now
        (verifyIntegrityResult env st bt now).total_blocks
        (verifyIntegrityResult env st bt now).verified_blocks)) := by
  have hne : ¬((selectLedger st bt).isEmpty = true) := by
    cases hsel : selectLedger st bt with
    | nil => exact absurd hsel h
    | cons a l => simp
  refine ⟨verify_integrity_fst env st bt now dbts, ?_, ?_⟩
  · unfold verify_blockchain_integrity
    rw [if_neg hne]
  · cases hsel : selectLedger st bt with
    | nil => exact absurd hsel h
    | cons a l =>
      rw [verifyIntegrityResult_eval env st bt now a l _ hsel rfl]

/-- C7 witness: the amended statement evaluated on a one-row credit
ledger. -/
theorem c7_nonempty_verify_logs_record_witness :
    selectLedger c7State "credit_score" ≠ [] ∧
    ((verify_blockchain_integrity envTag c7State "credit_score" "t" "d").1 =
      verifyIntegrityResult envTag c7State "credit_score" "t" ∧
    (verify_blockchain_integrity envTag c7State "credit_score" "t"
        "d").2.verificationLog =
      c7State.verificationLog ++
        [⟨"credit_score",
          (verifyIntegrityResult envTag c7State "credit_score"
            "t").total_blocks,
          (verifyIntegrityResult envTag c7State "credit_score"
            "t").verified_blocks,
          (verifyIntegrityResult envTag c7State "credit_score"
            "t").integrity_score, "d",
          envTag.sha (verificationJson envTag "credit_score"
            (verifyIntegrityResult envTag c7State "credit_score"
              "t").integrity_score "t"
            (verifyIntegrityResult envTag c7State "credit_score"
              "t").total_blocks
            (verifyIntegrityResult envTag c7State "credit_score"
              "t").verified_blocks)⟩] ∧
    (verifyIntegrityResult envTag c7State "credit_score"
        "t").verification_hash =
      some (envTag.sha (verificationJson envTag "credit_score"
        (verifyIntegrityResult envTag c7State "credit_score"
          "t").integrity_score "t"
        (verifyIntegrityResult envTag c7State "credit_score"
          "t").total_blocks
        (verifyIntegrityResult envTag c7State "credit_score"
          "t").verified_blocks))) :=
  ⟨by decide,
    c7_nonempty_verify_logs_record envTag c7State "credit_score" "t" "d"
      (by decide)⟩

/-- C9 counterexample: the claim says the health check covers every ledger
kind and the overall status is healthy iff all four are.  On a database
whose model-version ledger holds one (unverifiable) block while the two
checked ledgers are empty, the health check reports overall `healthy`
although the model-version kind's integrity score is 0 < 0.95. -/
theorem c9_overall_healthy_ignores_model_version :
    (blockchain_health_check envG c9State "n1" "d1" "n2"
      "d2").1.overall_status = "healthy" ∧
    (verifyIntegrityResult envG c9State "model_version" "n3").integrity_score
      < (0.95 : ℚ) := by
  constructor
  · have h1 := verify_integrity_empty envG c9State "credit_score" "n1" "d1"
      (by decide)
    have h2 := verify_integrity_empty envG c9State "transaction" "n2" "d2"
      (by decide)
    simp only [blockchain_health_check, h1, h2]
    norm_num
  · have hres := verifyIntegrityResult_eval envG c9State "model_version" "n3"
      (BlockRow.modelVersion c9ModelRow) [] 0 rfl (by decide)
    rw [hres]
    norm_num

/-- C9 (amended): `blockchain_health_check` examines only the `credit_score`
and `transaction` ledgers (its response has exactly those two per-kind
entries); each is reported healthy iff its integrity score is at least
0.95, and the overall status is healthy iff both of those two entries
are healthy. -/
theorem c9_health_covers_two_kinds (env : PyEnv) (st : ChainState)
    (n1 d1 n2 d2 : String) :
    (blockchain_health_check env st n1 d1 n2 d2).1.credit_score.status =
      (if (0.95 : ℚ) ≤
          (verifyIntegrityResult env st "credit_score" n1).integrity_score
        then "healthy" else "degraded") ∧
    (blockchain_health_check env st n1 d1 n2 d2).1.transaction.status =
      (if (0.95 : ℚ) ≤
          (verifyIntegrityResult env st "transaction" n2).integrity_score
        then "healthy" else "degraded") ∧
    (blockchain_health_check env st n1 d1 n2 d2).1.overall_status =
      (if ((blockchain_health_check env st n1 d1 n2
              d2).1.credit_score.status == "healthy")
          && ((blockchain_health_check env st n1 d1 n2
              d2).1.transaction.status == "healthy")
        then "healthy" else "degraded") := by
  simp only [blockchain_health_check]
  rw [verify_integrity_fst, verify_integrity_fst,
    verifyIntegrityResult_after_verify]
  exact ⟨rfl, rfl, trivial⟩

/-- C10 (confirmed): `_verify_single_block` returns `False` for every block
of the `model_version` and `prediction_audit` kinds, so on any non-empty
ledger of those kinds `verify_blockchain_integrity` returns
`verified_blocks=0`, `integrity_score=0.0` and `valid=false`, regardless of
the stored blocks' contents. -/
theorem c10_other_kinds_never_verify (env : PyEnv) (now : String)
    (st : ChainState) (r : ModelVersionRow) (rs : List ModelVersionRow)
    (p : PredictionAuditRow) (ps : List PredictionAuditRow) :
    (∀ b, verify_single_block env "model_version" b = false) ∧
    (∀ b, verify_single_block env "prediction_audit" b = false) ∧
    verifyIntegrityResult env { st with modelVersionLedger := r :: rs }
        "model_version" now =
      ⟨false, rs.length + 1, 0, 0,
        some (env.sha (verificationJson env "model_version" 0 now
          (rs.length + 1) 0))⟩ ∧
    verifyIntegrityResult env { st with predictionAuditLedger := p :: ps }
        "prediction_audit" now =
      ⟨false, ps.length + 1, 0, 0,
        some (env.sha (verificationJson env "prediction_audit" 0 now
          (ps.length + 1) 0))⟩ := by
  have hallM : ∀ b, verify_single_block env "model_version" b = false := by
    intro b; cases b <;> rfl
  have hallP : ∀ b, verify_single_block env "prediction_audit" b = false := by
    intro b; cases b <;> rfl
  refine ⟨hallM, hallP, ?_, ?_⟩
  · have hsel : selectLedger { st with modelVersionLedger := r :: rs }
        "model_version" =
        BlockRow.modelVersion r :: rs.map BlockRow.modelVersion := rfl
    have hv : verifyChainCount env "model_version"
        (BlockRow.modelVersion r :: rs.map BlockRow.modelVersion) = 0 := by
      simp only [verifyChainCount, hallM, Bool.false_eq_true, if_false,
        verifyLoopTail_allfalse env "model_version" hallM]
    rw [verifyIntegrityResult_eval env _ "model_version" now _ _ 0 hsel hv]
    have hz : ((0 : Nat) : ℚ) /
        (((rs.map BlockRow.modelVersion).length + 1 : Nat) : ℚ) = 0 := by
      simp
    rw [hz]
    simp [List.length_map]
  · have hsel : selectLedger { st with predictionAuditLedger := p :: ps }
        "prediction_audit" =
        BlockRow.predictionAudit p :: ps.map BlockRow.predictionAudit := rfl
    have hv : verifyChainCount env "prediction_audit"
        (BlockRow.predictionAudit p :: ps.map BlockRow.predictionAudit)
        = 0 := by
      simp only [verifyChainCount, hallP, Bool.false_eq_true, if_false,
        verifyLoopTail_allfalse env "prediction_audit" hallP]
    rw [verifyIntegrityResult_eval env _ "prediction_audit" now _ _ 0 hsel hv]
    have hz : ((0 : Nat) : ℚ) /
        (((ps.map BlockRow.predictionAudit).length + 1 : Nat) : ℚ) = 0 := by
      simp
    rw [hz]
    simp [List.length_map]
